import Mathlib

/-!
Verification of the declarative-columns YAML loader
(`data_designer_declarative_columns.config.DeclarativeColumnsConfig`).

The Python code is shallowly embedded: YAML/Python values are the inductive
type `YVal`; Python dictionaries are association lists with string keys (YAML
mappings parsed by `yaml.safe_load` have unique keys); Python semantics of
`in`, truthiness, iteration and `len` on dynamic values are modelled by
`pyContains`, `pyTruthy`, `pyEnumList` and `pyLen`; raised exceptions are the
`Err` type returned through `Except`. External collaborators (the filesystem,
the YAML parser, the column builder) are passed in as function parameters.
-/

namespace DDCols

/-- A deserialized YAML value (a Python scalar / list / dict tree as produced
by `yaml.safe_load`). `null` also models Python `None` (an empty document). -/
inductive YVal where
  | null
  | bool (b : Bool)
  | int (n : Int)
  | str (s : String)
  | seq (xs : List YVal)
  | map (kvs : List (String × YVal))

/-- Python `k == v` between a string `k` and a deserialized YAML value `v`:
true exactly for an equal string (a Python `str` compares unequal to every
`int`, `bool`, `None`, `list` and `dict`). -/
def eqStrVal (k : String) : YVal → Bool
  | .str s => s == k
  | _ => false

/-- Python `d[k]` / `d.get(k)` on a dict: value of the key, if present. -/
def dictGet (k : String) (kvs : List (String × YVal)) : Option YVal :=
  (kvs.find? (fun kv => kv.1 == k)).map (fun kv => kv.2)

/-- Key membership in a dict (`k in d` for a Python dict). -/
def hasKey (k : String) (kvs : List (String × YVal)) : Bool :=
  kvs.any (fun kv => kv.1 == k)

/-- Removing a key from a dict (`d.pop(k)`; YAML dict keys are unique). -/
def popKey (k : String) (kvs : List (String × YVal)) : List (String × YVal) :=
  kvs.filter (fun kv => kv.1 != k)

/-- Substring test on character lists, for Python `needle in haystack`
on strings. -/
def isSubstrCL (needle : List Char) : List Char → Bool
  | [] => needle.isEmpty
  | c :: cs => List.isPrefixOf needle (c :: cs) || isSubstrCL needle cs

/-- The exceptions the loader can raise.  `configNeither` … `registrationFailed`
are the distinct `ValueError`/`FileNotFoundError` raise sites of `config.py`
(the spec's ConfigurationError, SourceNotFoundError, ParseError,
EmptySourceError, StructuralError, NoColumnsError, MissingFieldError,
RegistrationError); `typeError`, `attrError` and `keyError` model uncaught
Python `TypeError`/`AttributeError`/`KeyError` on dynamically-typed values. -/
inductive ColDesc where
  | byName (v : YVal)
  | byIndex (i : Nat)

inductive Err where
  | configNeither
  | configBoth
  | fileNotFound (path : String)
  | parseFailure (src : String) (cause : String)
  | emptyYaml (src : String)
  | structural (src : String)
  | noColumns (src : String)
  | missingName (idx : Nat)
  | missingColumnType (d : ColDesc)
  | registrationFailed (nm : YVal) (cause : String)
  | typeError
  | attrError
  | keyError (k : String)

/-- Python `v is None` (the deserialized value of an empty document). -/
def isNullB : YVal → Bool
  | .null => true
  | _ => false

/-- Python truthiness (`if not v`) of a deserialized YAML value. -/
def pyTruthy : YVal → Bool
  | .null => false
  | .bool b => b
  | .int n => n != 0
  | .str s => !s.isEmpty
  | .seq xs => !xs.isEmpty
  | .map kvs => !kvs.isEmpty

/-- Python `k in v` for a string key `k`: key membership for a dict,
element membership for a list, substring test for a string, and a
`TypeError` for non-container values. -/
def pyContains (k : String) : YVal → Except Err Bool
  | .map kvs => .ok (hasKey k kvs)
  | .seq xs => .ok (xs.any (eqStrVal k))
  | .str s => .ok (isSubstrCL k.data s.data)
  | _ => .error .typeError

/-- Python iteration (`for x in v` / `enumerate(v)`): the elements of a list,
the one-character strings of a string, the keys of a dict; `TypeError`
otherwise. -/
def pyEnumList : YVal → Except Err (List YVal)
  | .seq xs => .ok xs
  | .str s => .ok (s.data.map (fun c => .str (String.mk [c])))
  | .map kvs => .ok (kvs.map (fun kv => .str kv.1))
  | _ => .error .typeError

/-- Python `len(v)`: length of a list, string or dict; `TypeError` otherwise. -/
def pyLen : YVal → Except Err Nat
  | .str s => .ok s.length
  | .seq xs => .ok xs.length
  | .map kvs => .ok kvs.length
  | _ => .error .typeError

/-- The fields of a `DeclarativeColumnsConfig` instance.  `columns` and
`tool_configs` are stored as raw `YVal`s: the Python assignments
`self.columns = data["columns"]` and `self.tool_configs = data["tool_configs"]`
perform no shape check (pydantic does not re-validate assignments made inside
the `mode="after"` validator). -/
structure ConfigState where
  file : Option String
  yaml_content : Option String
  tool_configs : YVal
  columns : YVal
  yaml_loaded : Bool

/-- A freshly constructed instance before `load_yaml` runs: `tool_configs`
and `columns` have their pydantic defaults (empty lists), `_yaml_loaded`
is `False`. -/
def mkConfig (file yaml_content : Option String) : ConfigState :=
  { file := file, yaml_content := yaml_content,
    tool_configs := .seq [], columns := .seq [], yaml_loaded := false }

/-- Lines 146–159 of `config.py`: extract `columns` (and `tool_configs`) from
the deserialized YAML value, or raise the structural `ValueError`.  Returns
the new `(columns, tool_configs)` pair; `tc` is the current value of
`self.tool_configs` (kept when the data has no `tool_configs` key). -/
def normalizeData (tc : YVal) (data : YVal) (src : String) :
    Except Err (YVal × YVal) :=
  match data with
  | .map kvs =>
    match dictGet "columns" kvs with
    | some cv =>
      match dictGet "tool_configs" kvs with
      | some tv => .ok (cv, tv)
      | none => .ok (cv, tc)
    | none => .error (.structural src)
  | .seq xs => .ok (.seq xs, tc)
  | _ => .error (.structural src)

/-- `col.get('name', f'index {i}')` in the missing-`column_type` message:
the record's `name` value when the record is a dict that has one, the index
fallback otherwise; a non-dict record has no `.get` (`AttributeError`). -/
def colDesc (i : Nat) : YVal → Except Err ColDesc
  | .map kvs =>
    match dictGet "name" kvs with
    | some v => .ok (.byName v)
    | none => .ok (.byIndex i)
  | _ => .error .attrError

/-- Lines 164–171 of `config.py`: the required-field loop
`for i, col in enumerate(self.columns)`, started at index `i`. -/
def validateColumns : Nat → List YVal → Except Err Unit
  | _, [] => .ok ()
  | i, col :: rest =>
    match pyContains "name" col with
    | .error e => .error e
    | .ok false => .error (.missingName i)
    | .ok true =>
      match pyContains "column_type" col with
      | .error e => .error e
      | .ok false =>
        match colDesc i col with
        | .error e => .error e
        | .ok d => .error (.missingColumnType d)
      | .ok true => validateColumns (i + 1) rest

/-- Lines 143–174 of `config.py`: everything after YAML deserialization —
the empty-document check, `normalizeData`, the no-columns check, the
required-field loop, and setting `_yaml_loaded`.  `data` is the value
returned by `yaml.safe_load` (`.null` models Python `None`). -/
def finishLoad (st : ConfigState) (src : String) (data : YVal) :
    Except Err ConfigState :=
  if isNullB data then .error (.emptyYaml src)
  else
    match normalizeData st.tool_configs data src with
    | .error e => .error e
    | .ok (cols, tcs) =>
      if !pyTruthy cols then .error (.noColumns src)
      else
        match pyEnumList cols with
        | .error e => .error e
        | .ok items =>
          match validateColumns 0 items with
          | .error e => .error e
          | .ok _ =>
            .ok { st with columns := cols, tool_configs := tcs,
                          yaml_loaded := true }

/-- The `load_yaml` model validator (lines 110–174 of `config.py`).  The
external collaborators are parameters: `fileExists` and `readFile` model the
filesystem, `safe_load` models the YAML deserializer (`.error` is a
`yaml.YAMLError`, `.ok .null` an empty document). -/
def load_yaml (fileExists : String → Bool) (readFile : String → String)
    (safe_load : String → Except String YVal) (st : ConfigState) :
    Except Err ConfigState :=
  if st.yaml_loaded then .ok st
  else
    match st.file, st.yaml_content with
    | none, none => .error .configNeither
    | some _, some _ => .error .configBoth
    | some f, none =>
      if fileExists f then
        match safe_load (readFile f) with
        | .error e => .error (.parseFailure ("file " ++ f) e)
        | .ok data => finishLoad st ("file " ++ f) data
      else .error (.fileNotFound f)
    | none, some yc =>
      match safe_load yc with
      | .error e => .error (.parseFailure "inline YAML" e)
      | .ok data => finishLoad st "inline YAML" data

/-- One invocation of the builder collaborator's
`add_column(name=…, column_type=…, **kwargs)`. -/
structure BCall where
  name : YVal
  column_type : YVal
  kwargs : List (String × YVal)

/-- `[col["name"] for col in self.columns]` over the already-iterated
records: dict lookup succeeds or raises `KeyError`; `col["name"]` on a
non-dict value raises `TypeError` (string/list indices must be integers,
scalars are not subscriptable). -/
def namesOf : List YVal → Except Err (List YVal)
  | [] => .ok []
  | col :: rest =>
    match col with
    | .map kvs =>
      match dictGet "name" kvs with
      | some v =>
        match namesOf rest with
        | .ok names => .ok (v :: names)
        | .error e => .error e
      | none => .error (.keyError "name")
    | _ => .error .typeError

/-- `get_column_names` (lines 203–209 of `config.py`). -/
def get_column_names (st : ConfigState) : Except Err (List YVal) :=
  match pyEnumList st.columns with
  | .error e => .error e
  | .ok items => namesOf items

/-- `has_tool_configs` (lines 231–237): `len(self.tool_configs) > 0`. -/
def has_tool_configs (st : ConfigState) : Except Err Bool :=
  match pyLen st.tool_configs with
  | .error e => .error e
  | .ok n => .ok (decide (0 < n))

/-- `__len__` (lines 239–241): `len(self.columns)`. -/
def config_len (st : ConfigState) : Except Err Nat :=
  pyLen st.columns

/-- The loop body of `add_columns_to_builder`, over the already-iterated
records, with `k` the index of the current call.  The builder collaborator is
`builder : Nat → BCall → Option String` (`none` = the call succeeded,
`some msg` = `add_column` raised with message `msg`).  Per record:
`kwargs = column_def.copy()` (a list record has `.copy` but its
`.pop("name")` wants an integer index, a `TypeError`; strings and scalars
have no `.copy`, an `AttributeError`), `name = kwargs.pop("name")` and
`column_type = kwargs.pop("column_type")` (`KeyError` when absent, outside
the `try`), then the builder call, whose failure is wrapped as
`registrationFailed` naming the column and aborts the loop.  Returns the
successful calls in order plus the raised exception, if any. -/
def addColumnsGo (builder : Nat → BCall → Option String) :
    Nat → List YVal → List BCall × Option Err
  | _, [] => ([], none)
  | k, col :: rest =>
    match col with
    | .map kvs =>
      match dictGet "name" kvs with
      | none => ([], some (.keyError "name"))
      | some nm =>
        match dictGet "column_type" (popKey "name" kvs) with
        | none => ([], some (.keyError "column_type"))
        | some ct =>
          let call : BCall :=
            ⟨nm, ct, popKey "column_type" (popKey "name" kvs)⟩
          match builder k call with
          | some msg => ([], some (.registrationFailed nm msg))
          | none =>
            match addColumnsGo builder (k + 1) rest with
            | (calls, e) => (call :: calls, e)
    | .seq _ => ([], some .typeError)
    | _ => ([], some .attrError)

/-- `add_columns_to_builder` (lines 176–201 of `config.py`).  Returns the
builder calls that were made (the externally observable builder state), the
raised exception if any, and the loader state after the call (the records are
only read and copied, never written). -/
def add_columns_to_builder (builder : Nat → BCall → Option String)
    (st : ConfigState) : (List BCall × Option Err) × ConfigState :=
  match pyEnumList st.columns with
  | .error e => (([], some e), st)
  | .ok items => (addColumnsGo builder 0 items, st)

/-- Whether a value is a mapping (a Python dict). -/
def IsMapB : YVal → Bool
  | .map _ => true
  | _ => false

/-- A mapping record that has both required fields: a dict containing the
keys `name` and `column_type`. -/
def goodRecord : YVal → Bool
  | .map kvs => hasKey "name" kvs && hasKey "column_type" kvs
  | _ => false

/-- The `k` field of a mapping record, if any. -/
def recGet (k : String) : YVal → Option YVal
  | .map kvs => dictGet k kvs
  | _ => none

/-- The builder call `add_columns_to_builder` makes for a mapping record
with both required fields: the record's `name` value, its `column_type`
value, and the remaining keys of a copy of the record. -/
def mkCall : YVal → BCall
  | .map kvs =>
    ⟨(dictGet "name" kvs).getD .null,
     (dictGet "column_type" (popKey "name" kvs)).getD .null,
     popKey "column_type" (popKey "name" kvs)⟩
  | _ => ⟨.null, .null, []⟩

/-- Whether a loader outcome is the structural `ValueError` of
lines 155–159 of `config.py`. -/
def isStructuralErr : Except Err ConfigState → Bool
  | .error (.structural _) => true
  | _ => false

/-- Whether a value is a sequence (a Python list). -/
def IsSeqB : YVal → Bool
  | .seq _ => true
  | _ => false

/-- Whether a value is a mapping containing a `columns` key
(`isinstance(data, dict) and "columns" in data`). -/
def mapWithColumns : YVal → Bool
  | .map kvs => hasKey "columns" kvs
  | _ => false

/-- Column record `{name: a, column_type: sampler}` used in the concrete
test cases of the spec. -/
def colA : YVal := .map [("name", .str "a"), ("column_type", .str "sampler")]

/-- Column record `{name: b, column_type: llm-text}` used in the concrete
test cases of the spec. -/
def colB : YVal := .map [("name", .str "b"), ("column_type", .str "llm-text")]

/-- A loaded instance obtained from a bare top-level sequence
(`tool_configs` keeps its default empty value). -/
def stBareSeq : ConfigState :=
  { file := none, yaml_content := some "a", tool_configs := .seq [],
    columns := .seq [colA], yaml_loaded := true }

/-- The tool-config record `{tool_alias: t}`. -/
def toolT : YVal := .map [("tool_alias", .str "t")]

/-- A loaded instance obtained from a mapping that also carried one
tool config. -/
def stWithTool : ConfigState :=
  { file := none, yaml_content := some "b", tool_configs := .seq [toolT],
    columns := .seq [colA], yaml_loaded := true }

/-- A loaded instance holding the two records `colA` and `colB`. -/
def stTwoCols : ConfigState :=
  { file := none, yaml_content := some "two", tool_configs := .seq [],
    columns := .seq [colA, colB], yaml_loaded := true }

/-- The YAML record `[name, column_type]` — a list, not a mapping, whose
elements happen to be the two required key names. -/
def colListRec : YVal := .seq [.str "name", .str "column_type"]

/-- The instance successfully loaded from `columns: [[name, column_type]]`. -/
def stListRec : ConfigState :=
  { file := none, yaml_content := some "lst", tool_configs := .seq [],
    columns := .seq [colListRec], yaml_loaded := true }

/-- The inline YAML of the spec's end-to-end example. -/
def yamlX : String :=
  "columns:\n  - name: x\n    column_type: sampler\n    sampler_type: category\n    params:\n      values: [A,B]\n"

/-- The single column record of the spec's end-to-end example, as
deserialized by the YAML parser. -/
def colX : YVal :=
  .map [("name", .str "x"), ("column_type", .str "sampler"),
    ("sampler_type", .str "category"),
    ("params", .map [("values", .seq [.str "A", .str "B"])])]

/-- The instance loaded from the end-to-end example. -/
def stColX : ConfigState :=
  { file := none, yaml_content := some yamlX, tool_configs := .seq [],
    columns := .seq [colX], yaml_loaded := true }

/-- A builder collaborator that rejects its second call (call index 1) with
message `rejected` and accepts every other call. -/
def builderFail1 : Nat → BCall → Option String :=
  fun k _ => if k = 1 then some "rejected" else none

/-- `hasKey` agrees with `dictGet` being defined. -/
theorem hasKey_eq_isSome (k : String) (kvs : List (String × YVal)) :
    hasKey k kvs = (dictGet k kvs).isSome := by
  induction kvs with
  | nil => rfl
  | cons kv rest ih =>
    simp only [hasKey, List.any_cons, dictGet, List.find?_cons] at *
    by_cases h : (kv.1 == k) = true
    · simp [h]
    · simp only [Bool.not_eq_true] at h
      simp [h, ih]

/-- Inversion for a successful `finishLoad`: the document was non-empty, the
extraction succeeded, the extracted columns value was truthy and iterable,
every record passed the required-field loop, and the instance fields are
exactly the extracted values with `_yaml_loaded = True`. -/
theorem finishLoad_ok_iff {st : ConfigState} {src : String} {data : YVal}
    {st' : ConfigState} :
    finishLoad st src data = .ok st' ↔
      isNullB data = false ∧
      ∃ cols tcs, normalizeData st.tool_configs data src = .ok (cols, tcs) ∧
        pyTruthy cols = true ∧
        ∃ items, pyEnumList cols = .ok items ∧
          validateColumns 0 items = .ok () ∧
          st' = { st with columns := cols, tool_configs := tcs,
                          yaml_loaded := true } := by
  constructor
  · intro h
    unfold finishLoad at h
    split at h
    · cases h
    · rename_i hb
      refine ⟨by simpa using hb, ?_⟩
      split at h
      · cases h
      · rename_i cols tcs hn
        refine ⟨cols, tcs, hn, ?_⟩
        split at h
        · cases h
        · rename_i ht
          refine ⟨by simpa using ht, ?_⟩
          split at h
          · cases h
          · rename_i items he
            refine ⟨items, he, ?_⟩
            split at h
            · cases h
            · rename_i u hv
              cases h
              exact ⟨hv, rfl⟩
  · rintro ⟨hb, cols, tcs, hn, ht, items, he, hv, hst⟩
    subst hst
    simp [finishLoad, hb, hn, ht, he, hv]

/-- A successful load on a not-yet-loaded instance went through the
post-deserialization pipeline for some source description and some
deserialized value. -/
theorem load_yaml_ok_unloaded {fe : String → Bool} {rf : String → String}
    {sl : String → Except String YVal} {st st' : ConfigState}
    (hl : st.yaml_loaded = false) (h : load_yaml fe rf sl st = .ok st') :
    ∃ src data, finishLoad st src data = .ok st' := by
  unfold load_yaml at h
  rw [hl] at h
  simp only [Bool.false_eq_true, if_false] at h
  split at h
  · cases h
  · cases h
  · split at h
    · split at h
      · cases h
      · exact ⟨_, _, h⟩
    · cases h
  · split at h
    · cases h
    · exact ⟨_, _, h⟩

/-- Claim C5: construction signals a `ConfigurationError` when both `file`
and `yaml_content` are supplied and when neither is, and the two cases raise
distinct errors naming the violated exclusivity rule (`configBoth`
vs. `configNeither`). -/
theorem c5_exclusivity (fe : String → Bool) (rf : String → String)
    (sl : String → Except String YVal) (st : ConfigState)
    (hl : st.yaml_loaded = false) :
    (st.file ≠ none → st.yaml_content ≠ none →
      load_yaml fe rf sl st = .error .configBoth) ∧
    (st.file = none → st.yaml_content = none →
      load_yaml fe rf sl st = .error .configNeither) := by
  constructor
  · intro h1 h2
    cases hf : st.file with
    | none => exact absurd hf h1
    | some f =>
      cases hy : st.yaml_content with
      | none => exact absurd hy h2
      | some y => simp [load_yaml, hl, hf, hy]
  · intro h1 h2
    simp [load_yaml, hl, h1, h2]

/-- Witness for C5: a fresh instance with both sources raises `configBoth`;
a fresh instance with neither raises `configNeither`. -/
theorem c5_exclusivity_witness :
    (mkConfig (some "a.yaml") (some "columns: []")).yaml_loaded = false ∧
    load_yaml (fun _ => false) (fun _ => "") (fun _ => .ok .null)
      (mkConfig (some "a.yaml") (some "columns: []")) = .error .configBoth ∧
    load_yaml (fun _ => false) (fun _ => "") (fun _ => .ok .null)
      (mkConfig none none) = .error .configNeither :=
  ⟨rfl,
   (c5_exclusivity (fun _ => false) (fun _ => "") (fun _ => .ok .null)
      (mkConfig (some "a.yaml") (some "columns: []")) rfl).1
     (by simp [mkConfig]) (by simp [mkConfig]),
   (c5_exclusivity (fun _ => false) (fun _ => "") (fun _ => .ok .null)
      (mkConfig none none) rfl).2 rfl rfl⟩

/-- Claim C6: `load_yaml` is idempotent — on an instance whose
`_yaml_loaded` flag is set it returns the instance unchanged without
consulting the filesystem or the YAML parser (the conclusion holds for every
`fileExists`/`readFile`/`safe_load` collaborator, so nothing is re-read or
re-parsed and `columns`/`tool_configs` are untouched) — and every successful
load leaves the flag `true`, so the flag goes from `false` to `true` exactly
once per instance. -/
theorem c6_idempotent (fe : String → Bool) (rf : String → String)
    (sl : String → Except String YVal) (st : ConfigState) :
    (st.yaml_loaded = true → load_yaml fe rf sl st = .ok st) ∧
    (∀ st', load_yaml fe rf sl st = .ok st' → st'.yaml_loaded = true) := by
  constructor
  · intro h; simp [load_yaml, h]
  · intro st' h
    by_cases hl : st.yaml_loaded = true
    · simp [load_yaml, hl] at h
      rw [← h]; exact hl
    · rw [Bool.not_eq_true] at hl
      obtain ⟨src, data, hfin⟩ := load_yaml_ok_unloaded hl h
      obtain ⟨-, cols, tcs, -, -, -, -, -, hst⟩ := finishLoad_ok_iff.mp hfin
      rw [hst]

/-- Witness for C6: re-invoking the load step on a loaded instance is a
no-op, and its flag stays `true`. -/
theorem c6_idempotent_witness :
    load_yaml (fun _ => false) (fun _ => "") (fun _ => .error "boom")
      { file := none, yaml_content := some "columns: [x]",
        tool_configs := YVal.seq [],
        columns := YVal.seq [YVal.map [("name", YVal.str "x"),
          ("column_type", YVal.str "sampler")]],
        yaml_loaded := true } =
      .ok { file := none, yaml_content := some "columns: [x]",
            tool_configs := YVal.seq [],
            columns := YVal.seq [YVal.map [("name", YVal.str "x"),
              ("column_type", YVal.str "sampler")]],
            yaml_loaded := true } ∧
    ({ file := none, yaml_content := some "columns: [x]",
       tool_configs := YVal.seq [],
       columns := YVal.seq [YVal.map [("name", YVal.str "x"),
         ("column_type", YVal.str "sampler")]],
       yaml_loaded := true } : ConfigState).yaml_loaded = true := by
  constructor
  · exact (c6_idempotent (fun _ => false) (fun _ => "") (fun _ => .error "boom")
      _).1 rfl
  · exact (c6_idempotent (fun _ => false) (fun _ => "") (fun _ => .error "boom")
      _).2 _ ((c6_idempotent (fun _ => false) (fun _ => "")
        (fun _ => .error "boom") _).1 rfl)

/-- Counterexample to claim C7 as stated: the deserialized value of an empty
document (`None`, modelled by `YVal.null`) is neither a mapping containing a
`columns` key nor a sequence, yet construction signals the empty-source
error of lines 143–144, not the structural error — the empty check comes
first. -/
theorem c7_structural_counterexample :
    mapWithColumns YVal.null = false ∧ IsSeqB YVal.null = false ∧
    load_yaml (fun _ => false) (fun _ => "") (fun _ => .ok .null)
      (mkConfig none (some "")) = .error (.emptyYaml "inline YAML") ∧
    isStructuralErr (load_yaml (fun _ => false) (fun _ => "")
      (fun _ => .ok .null) (mkConfig none (some ""))) = false :=
  ⟨rfl, rfl, rfl, rfl⟩

/-- Claim C7 (amended): for every deserialized YAML value other than `null`
that is neither a mapping containing a `columns` key nor a sequence, the
post-deserialization step signals the structural error naming the source;
when the value is a mapping with a `columns` key, that key's value becomes
`columns` and a `tool_configs` key's value, if present, becomes
`tool_configs` (both on the extraction step, and on the fields of any
successfully loaded instance). -/
theorem c7_structural (st : ConfigState) (src : String) :
    (∀ data, isNullB data = false → mapWithColumns data = false →
       IsSeqB data = false →
       finishLoad st src data = .error (.structural src)) ∧
    (∀ kvs cv, dictGet "columns" kvs = some cv →
       normalizeData st.tool_configs (.map kvs) src =
         .ok (cv, (dictGet "tool_configs" kvs).getD st.tool_configs)) ∧
    (∀ data st', finishLoad st src data = .ok st' →
       normalizeData st.tool_configs data src =
         .ok (st'.columns, st'.tool_configs)) := by
  refine ⟨?_, ?_, ?_⟩
  · intro data hnull hmap hseq
    cases data with
    | null => exact Bool.noConfusion hnull
    | bool b => simp [finishLoad, normalizeData, isNullB]
    | int n => simp [finishLoad, normalizeData, isNullB]
    | str s => simp [finishLoad, normalizeData, isNullB]
    | seq xs => exact Bool.noConfusion hseq
    | map kvs =>
      have hget : dictGet "columns" kvs = none := by
        have h2 := hasKey_eq_isSome "columns" kvs
        simp only [mapWithColumns] at hmap
        rw [hmap] at h2
        exact Option.not_isSome_iff_eq_none.mp (by rw [← h2]; simp)
      simp [finishLoad, normalizeData, isNullB, hget]
  · intro kvs cv hcv
    cases htc : dictGet "tool_configs" kvs with
    | none => simp [normalizeData, hcv, htc]
    | some tv => simp [normalizeData, hcv, htc]
  · intro data st' h
    obtain ⟨-, cols, tcs, hn, -, -, -, -, hst⟩ := finishLoad_ok_iff.mp h
    rw [hst, hn]

/-- Witness for C7: an integer document is rejected with the structural
error, and the extraction step of a mapping stores the `columns` and
`tool_configs` values. -/
theorem c7_structural_witness :
    isNullB (YVal.int 3) = false ∧ mapWithColumns (YVal.int 3) = false ∧
    IsSeqB (YVal.int 3) = false ∧
    finishLoad (mkConfig none (some "3")) "inline YAML" (YVal.int 3) =
      .error (.structural "inline YAML") ∧
    normalizeData (mkConfig none (some "x")).tool_configs
      (YVal.map [("columns", YVal.str "c"), ("tool_configs", YVal.int 1)])
      "inline YAML" = .ok (YVal.str "c", YVal.int 1) :=
  ⟨rfl, rfl, rfl,
   (c7_structural (mkConfig none (some "3")) "inline YAML").1 (YVal.int 3)
     rfl rfl rfl,
   (c7_structural (mkConfig none (some "x")) "inline YAML").2.1
     [("columns", YVal.str "c"), ("tool_configs", YVal.int 1)]
     (YVal.str "c") rfl⟩

/-- Claim C8: `has_tool_configs` is true iff the stored `tool_configs`
sequence is non-empty; after loading a bare top-level sequence the default
empty `tool_configs` is kept so it is false; after loading a mapping whose
`tool_configs` key holds a non-empty sequence it is true. -/
theorem c8_has_tool_configs (st : ConfigState) :
    (∀ l, st.tool_configs = .seq l →
       (has_tool_configs st = .ok true ↔ l ≠ [])) ∧
    (∀ src xs st', st.tool_configs = .seq [] →
       finishLoad st src (.seq xs) = .ok st' →
       has_tool_configs st' = .ok false) ∧
    (∀ src kvs t ts st', dictGet "tool_configs" kvs = some (.seq (t :: ts)) →
       finishLoad st src (.map kvs) = .ok st' →
       has_tool_configs st' = .ok true) := by
  refine ⟨?_, ?_, ?_⟩
  · intro l hl
    simp [has_tool_configs, hl, pyLen, List.length_pos]
  · intro src xs st' hempty h
    obtain ⟨-, cols, tcs, hn, -, -, -, -, hst⟩ := finishLoad_ok_iff.mp h
    simp only [normalizeData, Except.ok.injEq, Prod.mk.injEq] at hn
    obtain ⟨-, htc⟩ := hn
    rw [hst]
    simp [has_tool_configs, ← htc, hempty, pyLen]
  · intro src kvs t ts st' htc h
    obtain ⟨-, cols, tcs, hn, -, -, -, -, hst⟩ := finishLoad_ok_iff.mp h
    simp only [normalizeData] at hn
    split at hn
    · rw [htc] at hn
      simp only [Except.ok.injEq, Prod.mk.injEq] at hn
      obtain ⟨-, htcs⟩ := hn
      rw [hst]
      simp [has_tool_configs, ← htcs, pyLen]
    · cases hn

/-- Witness for C8: an already-loaded state with one tool config reports
`true`; a fresh load of a bare list keeps it empty and reports `false`; a
fresh load of a mapping with one tool config reports `true`. -/
theorem c8_has_tool_configs_witness :
    (stWithTool.tool_configs = YVal.seq [toolT] →
      (has_tool_configs stWithTool = .ok true ↔ [toolT] ≠ [])) ∧
    has_tool_configs stWithTool = .ok true ∧
    finishLoad (mkConfig none (some "a")) "inline YAML" (YVal.seq [colA]) =
      .ok stBareSeq ∧
    has_tool_configs stBareSeq = .ok false ∧
    finishLoad (mkConfig none (some "b")) "inline YAML"
      (YVal.map [("columns", YVal.seq [colA]), ("tool_configs",
        YVal.seq [toolT])]) = .ok stWithTool ∧
    has_tool_configs stWithTool = .ok true := by
  refine ⟨fun h => (c8_has_tool_configs stWithTool).1 [toolT] h,
          ((c8_has_tool_configs stWithTool).1 [toolT] rfl).mpr (by simp),
          rfl, ?_, rfl, ?_⟩
  · exact (c8_has_tool_configs (mkConfig none (some "a"))).2.1 "inline YAML"
      [colA] stBareSeq rfl rfl
  · exact (c8_has_tool_configs (mkConfig none (some "b"))).2.2 "inline YAML"
      [("columns", YVal.seq [colA]), ("tool_configs", YVal.seq [toolT])]
      toolT [] stWithTool rfl rfl

/-- Claim C10: a mapping whose `columns` value is a non-empty string passes
the structural check — the string is stored as `columns` by the extraction
step with no shape check — and construction then fails only in the
per-record field loop (iterating the string yields one-character records,
and the first lacks `name`), not with the structural error. -/
theorem c10_no_shape_check :
    normalizeData (YVal.seq [])
      (YVal.map [("columns", YVal.str "xyz")]) "inline YAML" =
      .ok (YVal.str "xyz", YVal.seq []) ∧
    load_yaml (fun _ => false) (fun _ => "")
      (fun _ => .ok (YVal.map [("columns", YVal.str "xyz")]))
      (mkConfig none (some "columns: xyz")) = .error (.missingName 0) ∧
    isStructuralErr (load_yaml (fun _ => false) (fun _ => "")
      (fun _ => .ok (YVal.map [("columns", YVal.str "xyz")]))
      (mkConfig none (some "columns: xyz"))) = false :=
  ⟨rfl, rfl, rfl⟩

/-- A record with both required keys passes one step of the field loop. -/
theorem validateColumns_append_good (n : Nat) (pre rest : List YVal)
    (hpre : pre.all goodRecord = true) :
    validateColumns n (pre ++ rest) = validateColumns (n + pre.length) rest := by
  induction pre generalizing n with
  | nil => simp
  | cons c cs ih =>
    simp only [List.all_cons, Bool.and_eq_true] at hpre
    obtain ⟨hc, hcs⟩ := hpre
    cases c with
    | null => exact Bool.noConfusion hc
    | bool b => exact Bool.noConfusion hc
    | int n => exact Bool.noConfusion hc
    | str s => exact Bool.noConfusion hc
    | seq xs => exact Bool.noConfusion hc
    | map kvs =>
      simp only [goodRecord, Bool.and_eq_true] at hc
      obtain ⟨h1, h2⟩ := hc
      simp only [List.cons_append, validateColumns, pyContains, h1, h2,
        List.append_eq]
      rw [ih (n + 1) hcs]
      congr 1
      simp only [List.length_cons]
      omega

/-- The field loop rejects a mapping record without `name` with the
zero-based index, and one with `name` but without `column_type` with the
record's `name` value. -/
theorem validateColumns_cons_missing (n : Nat)
    (kvs : List (String × YVal)) (rest : List YVal) :
    (hasKey "name" kvs = false →
      validateColumns n (.map kvs :: rest) = .error (.missingName n)) ∧
    (hasKey "name" kvs = true → hasKey "column_type" kvs = false →
      validateColumns n (.map kvs :: rest) = .error (.missingColumnType
        (.byName ((dictGet "name" kvs).getD .null)))) := by
  constructor
  · intro h1
    simp [validateColumns, pyContains, h1]
  · intro h1 h2
    have hsome : (dictGet "name" kvs).isSome = true := by
      rw [← hasKey_eq_isSome]; exact h1
    obtain ⟨v, hv⟩ := Option.isSome_iff_exists.mp hsome
    simp [validateColumns, pyContains, h1, h2, colDesc, hv]

/-- A value accepted by the extraction step is not `null`. -/
theorem normalizeData_ok_not_null {tc data : YVal} {src : String}
    {p : YVal × YVal} (h : normalizeData tc data src = .ok p) :
    isNullB data = false := by
  cases data with
  | null => cases h
  | bool b => rfl
  | int n => rfl
  | str s => rfl
  | seq xs => rfl
  | map kvs => rfl

/-- Claim C4: during construction, if every record before position
`pre.length` has both required fields and the record at that position is a
mapping, then: lacking `name` it raises the missing-field error carrying the
zero-based index `pre.length`, and having `name` but lacking `column_type`
it raises the missing-field error identifying the record by its `name`
value. -/
theorem c4_missing_fields (st : ConfigState) (src : String) (data : YVal)
    (tcs : YVal) (pre suf : List YVal) (kvs : List (String × YVal))
    (hnorm : normalizeData st.tool_configs data src =
      .ok (.seq (pre ++ .map kvs :: suf), tcs))
    (hpre : pre.all goodRecord = true) :
    (hasKey "name" kvs = false →
      finishLoad st src data = .error (.missingName pre.length)) ∧
    (hasKey "name" kvs = true → hasKey "column_type" kvs = false →
      finishLoad st src data = .error (.missingColumnType
        (.byName ((dictGet "name" kvs).getD .null)))) := by
  have hnull := normalizeData_ok_not_null hnorm
  have htr : pyTruthy (.seq (pre ++ .map kvs :: suf)) = true := by
    simp [pyTruthy]
  have hload : ∀ e, validateColumns 0 (pre ++ .map kvs :: suf) = .error e →
      finishLoad st src data = .error e := by
    intro e hv
    unfold finishLoad
    rw [if_neg (by simp [hnull]), hnorm]
    simp [htr, pyEnumList, hv]
  constructor
  · intro h1
    apply hload
    rw [validateColumns_append_good 0 pre (.map kvs :: suf) hpre,
      Nat.zero_add]
    exact (validateColumns_cons_missing pre.length kvs suf).1 h1
  · intro h1 h2
    apply hload
    rw [validateColumns_append_good 0 pre (.map kvs :: suf) hpre,
      Nat.zero_add]
    exact (validateColumns_cons_missing pre.length kvs suf).2 h1 h2

/-- Witness for C4: a second record lacking `name` is reported by the
zero-based index 1; a first record with `name: b` but no `column_type` is
reported by the name `b`. -/
theorem c4_missing_fields_witness :
    normalizeData (mkConfig none (some "w")).tool_configs
      (YVal.map [("columns", YVal.seq [colA,
        YVal.map [("column_type", YVal.str "s")]])]) "inline YAML" =
      .ok (.seq ([colA] ++ YVal.map [("column_type", YVal.str "s")] :: []),
        YVal.seq []) ∧
    [colA].all goodRecord = true ∧
    finishLoad (mkConfig none (some "w")) "inline YAML"
      (YVal.map [("columns", YVal.seq [colA,
        YVal.map [("column_type", YVal.str "s")]])]) =
      .error (.missingName 1) ∧
    finishLoad (mkConfig none (some "w")) "inline YAML"
      (YVal.map [("columns", YVal.seq [YVal.map [("name", YVal.str "b")]])]) =
      .error (.missingColumnType (.byName (YVal.str "b"))) :=
  ⟨rfl, rfl,
   (c4_missing_fields (mkConfig none (some "w")) "inline YAML"
     (YVal.map [("columns", YVal.seq [colA,
       YVal.map [("column_type", YVal.str "s")]])]) (YVal.seq []) [colA] []
     [("column_type", YVal.str "s")] rfl rfl).1 rfl,
   (c4_missing_fields (mkConfig none (some "w")) "inline YAML"
     (YVal.map [("columns", YVal.seq [YVal.map [("name", YVal.str "b")]])])
     (YVal.seq []) [] [] [("name", YVal.str "b")] rfl rfl).2 rfl rfl⟩

/-- When every record so far is a mapping that survived the field loop,
`get_column_names`'s comprehension succeeds and returns the `name` field of
every record in order. -/
theorem namesOf_of_validate (n : Nat) (cols : List YVal)
    (hv : validateColumns n cols = .ok ()) (hm : cols.all IsMapB = true) :
    ∃ names, namesOf cols = .ok names ∧ names.length = cols.length ∧
      List.Forall₂ (fun c nm => recGet "name" c = some nm) cols names := by
  induction cols generalizing n with
  | nil => exact ⟨[], rfl, rfl, .nil⟩
  | cons c rest ih =>
    simp only [List.all_cons, Bool.and_eq_true] at hm
    obtain ⟨hc, hrest⟩ := hm
    cases c with
    | null => exact Bool.noConfusion hc
    | bool b => exact Bool.noConfusion hc
    | int n => exact Bool.noConfusion hc
    | str s => exact Bool.noConfusion hc
    | seq xs => exact Bool.noConfusion hc
    | map kvs =>
      by_cases h1 : hasKey "name" kvs = true
      · by_cases h2 : hasKey "column_type" kvs = true
        · have hv2 : validateColumns (n + 1) rest = .ok () := by
            simpa [validateColumns, pyContains, h1, h2] using hv
          obtain ⟨names, hnames, hlen, hfa⟩ := ih (n + 1) hv2 hrest
          have hsome : (dictGet "name" kvs).isSome = true := by
            rw [← hasKey_eq_isSome]; exact h1
          obtain ⟨v, hvget⟩ := Option.isSome_iff_exists.mp hsome
          refine ⟨v :: names, ?_, ?_, ?_⟩
          · simp [namesOf, hvget, hnames]
          · simp [hlen]
          · exact List.Forall₂.cons (by simp [recGet, hvget]) hfa
        · rw [Bool.not_eq_true] at h2
          rw [(validateColumns_cons_missing n kvs rest).2 h1 h2] at hv
          cases hv
      · rw [Bool.not_eq_true] at h1
        rw [(validateColumns_cons_missing n kvs rest).1 h1] at hv
        cases hv

/-- Claim C1: a successful construction from YAML whose normalized `columns`
sequence consists of N mapping records yields `__len__` equal to N and
`get_column_names` equal to the sequence of the records' `name` fields, in
the original order. -/
theorem c1_count_and_names (fe : String → Bool) (rf : String → String)
    (sl : String → Except String YVal) (st st' : ConfigState)
    (cols : List YVal) (hl : st.yaml_loaded = false)
    (hok : load_yaml fe rf sl st = .ok st')
    (hcols : st'.columns = .seq cols) (hmaps : cols.all IsMapB = true) :
    config_len st' = .ok cols.length ∧
    ∃ names, get_column_names st' = .ok names ∧
      names.length = cols.length ∧
      List.Forall₂ (fun c nm => recGet "name" c = some nm) cols names := by
  obtain ⟨src, data, hfin⟩ := load_yaml_ok_unloaded hl hok
  obtain ⟨-, cols2, tcs, hn, ht, items, he, hv, hst⟩ :=
    finishLoad_ok_iff.mp hfin
  have hc2 : cols2 = .seq cols := by rw [hst] at hcols; exact hcols
  subst hc2
  have hitems : items = cols := by
    simp only [pyEnumList, Except.ok.injEq] at he
    exact he.symm
  subst hitems
  constructor
  · rw [hst]
    simp [config_len, pyLen]
  · have hnames := namesOf_of_validate 0 items hv hmaps
    rw [hst]
    simpa [get_column_names, pyEnumList] using hnames

/-- Witness for C1: loading two sampler columns `a` and `b` gives
`config_len = 2` and the names `[a, b]` in order. -/
theorem c1_count_and_names_witness :
    (mkConfig none (some "two")).yaml_loaded = false ∧
    load_yaml (fun _ => false) (fun _ => "")
      (fun _ => .ok (YVal.seq [colA, colB])) (mkConfig none (some "two")) =
      .ok stTwoCols ∧
    stTwoCols.columns = .seq [colA, colB] ∧
    [colA, colB].all IsMapB = true ∧
    (config_len stTwoCols = .ok [colA, colB].length ∧
      ∃ names, get_column_names stTwoCols = .ok names ∧
        names.length = [colA, colB].length ∧
        List.Forall₂ (fun c nm => recGet "name" c = some nm)
          [colA, colB] names) :=
  ⟨rfl, rfl, rfl, rfl,
   c1_count_and_names (fun _ => false) (fun _ => "")
     (fun _ => .ok (YVal.seq [colA, colB])) (mkConfig none (some "two"))
     stTwoCols [colA, colB] rfl rfl rfl rfl⟩

/-- Counterexample to claim C9 as stated: construction accepts the record
`[name, column_type]` — a list, for which the `in` checks of the field loop
are element membership, both true — so the loader is successfully
constructed, yet `get_column_names` fails with a `TypeError` (`col["name"]`
on a list wants an integer index).  The construction-time validation does
not guarantee that the `name` lookup succeeds on every record. -/
theorem c9_names_counterexample :
    load_yaml (fun _ => false) (fun _ => "")
      (fun _ => .ok (YVal.map [("columns", YVal.seq [colListRec])]))
      (mkConfig none (some "lst")) = .ok stListRec ∧
    get_column_names stListRec = .error .typeError :=
  ⟨rfl, rfl⟩

/-- Claim C9 (amended): on every successfully constructed loader all of
whose column records are mappings, `get_column_names` has no error
conditions — each `name` lookup succeeds because construction already
checked each mapping record for the `name` key. -/
theorem c9_names_total (fe : String → Bool) (rf : String → String)
    (sl : String → Except String YVal) (st st' : ConfigState)
    (cols : List YVal) (hl : st.yaml_loaded = false)
    (hok : load_yaml fe rf sl st = .ok st')
    (hcols : st'.columns = .seq cols) (hmaps : cols.all IsMapB = true) :
    ∃ names, get_column_names st' = .ok names := by
  obtain ⟨src, data, hfin⟩ := load_yaml_ok_unloaded hl hok
  obtain ⟨-, cols2, tcs, hn, ht, items, he, hv, hst⟩ :=
    finishLoad_ok_iff.mp hfin
  have hc2 : cols2 = .seq cols := by rw [hst] at hcols; exact hcols
  subst hc2
  have hitems : items = cols := by
    simp only [pyEnumList, Except.ok.injEq] at he
    exact he.symm
  subst hitems
  obtain ⟨names, hnames, -, -⟩ := namesOf_of_validate 0 items hv hmaps
  refine ⟨names, ?_⟩
  rw [hst]
  simpa [get_column_names, pyEnumList] using hnames

/-- Witness for C9 (amended): the loader of two mapping records has
well-defined column names. -/
theorem c9_names_total_witness :
    (mkConfig none (some "two")).yaml_loaded = false ∧
    load_yaml (fun _ => false) (fun _ => "")
      (fun _ => .ok (YVal.seq [colA, colB])) (mkConfig none (some "two")) =
      .ok stTwoCols ∧
    stTwoCols.columns = .seq [colA, colB] ∧
    [colA, colB].all IsMapB = true ∧
    ∃ names, get_column_names stTwoCols = .ok names :=
  ⟨rfl, rfl, rfl, rfl,
   c9_names_total (fun _ => false) (fun _ => "")
     (fun _ => .ok (YVal.seq [colA, colB])) (mkConfig none (some "two"))
     stTwoCols [colA, colB] rfl rfl rfl rfl⟩

/-- Removing one key from a dict leaves the lookup of any other key
unchanged. -/
theorem dictGet_popKey_ne (k k2 : String) (hne : (k == k2) = false)
    (kvs : List (String × YVal)) :
    dictGet k (popKey k2 kvs) = dictGet k kvs := by
  induction kvs with
  | nil => rfl
  | cons kv rest ih =>
    by_cases hk : (kv.1 == k2) = true
    · have hkk : (kv.1 == k) = false := by
        rw [eq_of_beq hk]
        by_contra hcon
        rw [Bool.not_eq_false] at hcon
        rw [eq_of_beq hcon] at hne
        simp at hne
      have hdrop : popKey k2 (kv :: rest) = popKey k2 rest := by
        simp [popKey, List.filter_cons, bne, hk]
      rw [hdrop, ih]
      simp [dictGet, List.find?_cons, hkk]
    · rw [Bool.not_eq_true] at hk
      have hkeep : popKey k2 (kv :: rest) = kv :: popKey k2 rest := by
        simp [popKey, List.filter_cons, bne, hk]
      rw [hkeep]
      by_cases hkk : (kv.1 == k) = true
      · simp [dictGet, List.find?_cons, hkk]
      · rw [Bool.not_eq_true] at hkk
        simp only [dictGet, List.find?_cons, hkk]
        exact ih

/-- One mapping record with both fields, accepted by the builder, advances
the registration loop by exactly one call. -/
theorem addColumnsGo_cons_good (builder : Nat → BCall → Option String)
    (k : Nat) (kvs : List (String × YVal)) (rest : List YVal)
    (h1 : hasKey "name" kvs = true) (h2 : hasKey "column_type" kvs = true)
    (hb : builder k (mkCall (.map kvs)) = none) :
    addColumnsGo builder k (.map kvs :: rest) =
      (mkCall (.map kvs) :: (addColumnsGo builder (k + 1) rest).1,
       (addColumnsGo builder (k + 1) rest).2) := by
  obtain ⟨nm, hnm⟩ := Option.isSome_iff_exists.mp
    (by rw [← hasKey_eq_isSome]; exact h1)
  have hpop : dictGet "column_type" (popKey "name" kvs) =
      dictGet "column_type" kvs :=
    dictGet_popKey_ne "column_type" "name" rfl kvs
  obtain ⟨ct, hct⟩ := Option.isSome_iff_exists.mp
    (by rw [← hasKey_eq_isSome]; exact h2)
  have hmk : mkCall (.map kvs) =
      ⟨nm, ct, popKey "column_type" (popKey "name" kvs)⟩ := by
    simp [mkCall, hnm, hpop, hct]
  rw [hmk] at hb
  simp only [addColumnsGo, hnm, hpop, hct, hb, hmk]

/-- The registration loop walks a prefix of good records accepted by the
builder, emitting their calls, before processing the remainder. -/
theorem addColumnsGo_append_good (builder : Nat → BCall → Option String)
    (k : Nat) (pre rest : List YVal) (hpre : pre.all goodRecord = true)
    (hb : ∀ j bc, j < pre.length → builder (k + j) bc = none) :
    addColumnsGo builder k (pre ++ rest) =
      (pre.map mkCall ++ (addColumnsGo builder (k + pre.length) rest).1,
       (addColumnsGo builder (k + pre.length) rest).2) := by
  induction pre generalizing k with
  | nil => simp
  | cons c cs ih =>
    simp only [List.all_cons, Bool.and_eq_true] at hpre
    obtain ⟨hc, hcs⟩ := hpre
    cases c with
    | null => exact Bool.noConfusion hc
    | bool b => exact Bool.noConfusion hc
    | int n => exact Bool.noConfusion hc
    | str s => exact Bool.noConfusion hc
    | seq xs => exact Bool.noConfusion hc
    | map kvs =>
      simp only [goodRecord, Bool.and_eq_true] at hc
      obtain ⟨h1, h2⟩ := hc
      have hb0 : builder k (mkCall (.map kvs)) = none := by
        have := hb 0 (mkCall (.map kvs)) (by simp)
        simpa using this
      rw [List.cons_append,
        addColumnsGo_cons_good builder k kvs (cs ++ rest) h1 h2 hb0]
      have hb1 : ∀ j bc, j < cs.length → builder (k + 1 + j) bc = none := by
        intro j bc hj
        have := hb (j + 1) bc (by simpa using Nat.succ_lt_succ hj)
        have harith : k + (j + 1) = k + 1 + j := by omega
        rw [harith] at this
        exact this
      rw [ih (k + 1) hcs hb1]
      have harith : k + 1 + cs.length = k + (YVal.map kvs :: cs).length := by
        simp only [List.length_cons]
        omega
      rw [harith]
      simp

/-- Claim C2: on a loader whose records are mappings with both required
fields, `add_columns_to_builder` with an accepting builder invokes the
builder once per record in original order, each time with the record's
`name`, its `column_type`, and the remaining keys of a copy of the record,
raises nothing, and leaves the loader's stored records unchanged. -/
theorem c2_register_in_order (builder : Nat → BCall → Option String)
    (st : ConfigState) (cols : List YVal) (hcols : st.columns = .seq cols)
    (hgood : cols.all goodRecord = true)
    (hb : ∀ k bc, builder k bc = none) :
    add_columns_to_builder builder st = ((cols.map mkCall, none), st) := by
  simp only [add_columns_to_builder, hcols, pyEnumList]
  have h := addColumnsGo_append_good builder 0 cols [] hgood
    (fun j bc _ => hb (0 + j) bc)
  simpa [addColumnsGo] using h

/-- Witness for C2: the spec's end-to-end example — loading the one-column
YAML and registering it calls the builder exactly once with
`("x", "sampler", {sampler_type: category, params: {values: [A, B]}})` and
returns the loader state unchanged. -/
theorem c2_register_in_order_witness :
    load_yaml (fun _ => false) (fun _ => "")
      (fun _ => .ok (YVal.map [("columns", YVal.seq [colX])]))
      (mkConfig none (some yamlX)) = .ok stColX ∧
    stColX.columns = .seq [colX] ∧
    [colX].all goodRecord = true ∧
    config_len stColX = .ok 1 ∧
    get_column_names stColX = .ok [YVal.str "x"] ∧
    add_columns_to_builder (fun _ _ => none) stColX =
      (([⟨YVal.str "x", YVal.str "sampler",
          [("sampler_type", YVal.str "category"),
           ("params", YVal.map [("values",
             YVal.seq [YVal.str "A", YVal.str "B"])])]⟩], none), stColX) :=
  ⟨rfl, rfl, rfl, rfl, rfl,
   c2_register_in_order (fun _ _ => none) stColX [colX] rfl rfl
     (fun _ _ => rfl)⟩

/-- Claim C3: if the builder accepts the calls for the good records before
position `pre.length` and rejects the call for the mapping record at that
position, `add_columns_to_builder` raises the registration error carrying
that record's `name` value and the cause, the records before the failure
remain registered (their calls were already made — no rollback), and no
later record is registered. -/
theorem c3_failfast (builder : Nat → BCall → Option String)
    (st : ConfigState) (pre suf : List YVal) (kvs : List (String × YVal))
    (msg : String) (hcols : st.columns = .seq (pre ++ .map kvs :: suf))
    (hpre : pre.all goodRecord = true)
    (h1 : hasKey "name" kvs = true) (h2 : hasKey "column_type" kvs = true)
    (hbpre : ∀ j bc, j < pre.length → builder j bc = none)
    (hfail : builder pre.length (mkCall (.map kvs)) = some msg) :
    add_columns_to_builder builder st =
      ((pre.map mkCall, some (.registrationFailed
        ((dictGet "name" kvs).getD .null) msg)), st) := by
  simp only [add_columns_to_builder, hcols, pyEnumList]
  rw [addColumnsGo_append_good builder 0 pre (.map kvs :: suf) hpre
    (fun j bc hj => by simpa using hbpre j bc hj)]
  obtain ⟨nm, hnm⟩ := Option.isSome_iff_exists.mp
    (by rw [← hasKey_eq_isSome]; exact h1)
  have hpop : dictGet "column_type" (popKey "name" kvs) =
      dictGet "column_type" kvs :=
    dictGet_popKey_ne "column_type" "name" rfl kvs
  obtain ⟨ct, hct⟩ := Option.isSome_iff_exists.mp
    (by rw [← hasKey_eq_isSome]; exact h2)
  have hfail' : builder pre.length
      ⟨nm, ct, popKey "column_type" (popKey "name" kvs)⟩ = some msg := by
    have hmk : mkCall (.map kvs) =
        ⟨nm, ct, popKey "column_type" (popKey "name" kvs)⟩ := by
      simp [mkCall, hnm, hpop, hct]
    rw [hmk] at hfail
    exact hfail
  have hhead : addColumnsGo builder (0 + pre.length) (.map kvs :: suf) =
      ([], some (.registrationFailed ((dictGet "name" kvs).getD .null)
        msg)) := by
    simp only [Nat.zero_add, addColumnsGo, hnm, hpop, hct, hfail']
    simp [hnm]
  rw [hhead]
  simp

/-- Witness for C3: over the records `{name: a, column_type: sampler}` and
`{name: b, column_type: llm-text}`, a builder failing on its second call
yields the registration error naming `b`, with the recorded first call
exactly `("a", "sampler", {})`. -/
theorem c3_failfast_witness :
    stTwoCols.columns =
      .seq ([colA] ++ YVal.map [("name", YVal.str "b"),
        ("column_type", YVal.str "llm-text")] :: []) ∧
    [colA].all goodRecord = true ∧
    builderFail1 1 (mkCall (.map [("name", YVal.str "b"),
      ("column_type", YVal.str "llm-text")])) = some "rejected" ∧
    add_columns_to_builder builderFail1 stTwoCols =
      (([⟨YVal.str "a", YVal.str "sampler", []⟩],
        some (.registrationFailed (YVal.str "b") "rejected")), stTwoCols) :=
  ⟨rfl, rfl, rfl,
   c3_failfast builderFail1 stTwoCols [colA] []
     [("name", YVal.str "b"), ("column_type", YVal.str "llm-text")]
     "rejected" rfl rfl rfl rfl
     (fun j bc hj => by
       have hj0 : j = 0 := Nat.lt_one_iff.mp hj
       subst hj0
       rfl)
     rfl⟩

end DDCols
